import Mathlib

set_option linter.unusedVariables false

/-!
Verification development for the wire e-commerce client.

This file gives a shallow embedding of the two components the specification
documents precisely — the OTP login flow (`src/context/UserAuthContext.tsx`)
and the realtime subscription / entity-access layer (`src/lib/realtime-db.ts`)
together with the product-list consumer handler — and proves the testable
properties stated for them.

Modelling conventions:
  * JavaScript strings are Lean `String`s; the string helpers (`trim`,
    `toLowerCase`, regex tests) are re-implemented over `List Char` so that
    the kernel can evaluate them on concrete inputs.
  * `Date.now()` timestamps (milliseconds) are `Nat`.
  * The SHA-256 digest computed by `hashOtp` is modelled by its (injective)
    normalized preimage string — the standard collision-freeness
    idealization: two digests are equal exactly when the normalized
    `contact::otp` inputs are equal.
  * Asynchronous backend round-trips are modelled by passing the backend's
    response (or a small oracle of outcomes) as an explicit argument.
-/

namespace Wire

/-- Drop leading and trailing whitespace from a character list, mirroring
JavaScript `String.prototype.trim`. -/
def trimChars (cs : List Char) : List Char :=
  (((cs.dropWhile Char.isWhitespace).reverse).dropWhile Char.isWhitespace).reverse

/-- JavaScript `value.trim()` on a Lean string. -/
def jsTrim (s : String) : String :=
  String.mk (trimChars s.data)

/-- JavaScript `value.toLowerCase()` (ASCII range, which covers every contact
string this flow handles). -/
def jsToLower (s : String) : String :=
  String.mk (s.data.map Char.toLower)

/-- Split a character list on a separator character, mirroring how a regex
decomposes the input around a character that no sub-pattern may contain. -/
def splitOnChar (sep : Char) : List Char → List (List Char)
  | [] => [[]]
  | c :: rest =>
    let r := splitOnChar sep rest
    if c = sep then [] :: r
    else
      match r with
      | [] => [[c]]
      | x :: xs => (c :: x) :: xs

/-- Character class of the local part of the email regex in
`UserAuthContext.tsx`: letters, digits, and the punctuation listed there
(apostrophe, backtick and braces are written via their code points). -/
def emailLocalChar (c : Char) : Bool :=
  c.isAlpha || c.isDigit ||
  [ '_', '!', '#', '$', '%', '&', '*', '+', '/', '=', '?', '~', '^', '.', '-', '|'].contains c ||
  c = Char.ofNat 39 || c = Char.ofNat 96 || c = Char.ofNat 123 || c = Char.ofNat 125

/-- Character class `[a-zA-Z0-9-]` of a domain label. -/
def domainLabelChar (c : Char) : Bool :=
  c.isAlpha || c.isDigit || c = '-'

/-- The trailing `[a-zA-Z]{2,}` top-level-domain pattern. -/
def isTldChars (cs : List Char) : Bool :=
  decide (2 ≤ cs.length) && cs.all Char.isAlpha

/-- The email test of `UserAuthContext.tsx`:
`/^(?:[local chars]+)@(?:[a-zA-Z0-9-]+\.)+[a-zA-Z]{2,}$/` applied to
`value.trim()`. Neither the local part nor the domain may contain `@`, and
no label may contain a dot, so the regex match is equivalent to this
decomposition along `@` and `.`. -/
def isValidEmail (value : String) : Bool :=
  match splitOnChar '@' (trimChars value.data) with
  | [lp, dom] =>
    !lp.isEmpty && lp.all emailLocalChar &&
    (match (splitOnChar '.' dom).reverse with
     | tld :: labels =>
       !labels.isEmpty && isTldChars tld &&
       labels.all (fun l => !l.isEmpty && l.all domainLabelChar)
     | [] => false)
  | _ => false

/-- The phone test of `UserAuthContext.tsx`: strip whitespace and hyphens
from the trimmed value, then require `/^[6-9]\d{9}$/` (an Indian mobile
number: ten digits, the first in 6–9). -/
def isValidPhone (value : String) : Bool :=
  match (trimChars value.data).filter (fun c => !(c.isWhitespace || c = '-')) with
  | c :: rest =>
    (decide ('6' ≤ c) && decide (c ≤ '9')) && decide (rest.length = 9) && rest.all Char.isDigit
  | [] => false

/-- The fixed test OTP `TEST_OTP = "123456"`. -/
def TEST_OTP : String := "123456"

/-- The generator `generateOtp` always returns the fixed test code. -/
def generateOtp : String := TEST_OTP

/-- The `hashOtp` digest, modelled by its injective normalized preimage
`contact.toLowerCase().trim() ++ "::" ++ otp` (SHA-256 is idealized as
collision-free, so digest equality is preimage equality). -/
def hashOtp (otp contact : String) : String :=
  jsTrim (jsToLower contact) ++ "::" ++ otp

/-- The `/^[0-9]{6}$/` well-formedness test applied to a candidate code. -/
def isSixDigitCode (s : String) : Bool :=
  decide (s.data.length = 6) && s.data.all Char.isDigit

/-- The transient `PendingVerification` record held in component state. -/
structure PendingVerification where
  contact : String
  otpHash : String
  expiresAt : Nat
  attempts : Nat
deriving DecidableEq, Repr

/-- Outcome of `requestOtp`: success, or the thrown validation error. -/
inductive RequestOutcome where
  | ok
  | errInvalidContact
deriving DecidableEq, Repr

/-- The `requestOtp` action: validate the trimmed contact as email or phone,
generate the (fixed) code, and store digest + contact + a five-minute expiry
+ a zero attempt counter, unconditionally replacing any prior pending
verification. On validation failure it throws and leaves state unchanged. -/
def requestOtp (pending : Option PendingVerification) (contact : String) (now : Nat) :
    RequestOutcome × Option PendingVerification :=
  let trimmed := jsTrim contact
  if !isValidEmail trimmed && !isValidPhone trimmed then
    (.errInvalidContact, pending)
  else
    (.ok, some { contact := trimmed
                 otpHash := hashOtp generateOtp trimmed
                 expiresAt := now + 5 * 60 * 1000
                 attempts := 0 })

/-- Oracle for the backend interactions on the success path of `verifyOtp`:
whether the client handle is configured, whether `getSession` already has a
session, whether `signInAnonymously` succeeds, whether a `users` row already
exists for the session identity, and whether inserting a fresh row would
succeed. -/
structure Backend where
  configured : Bool
  hasSession : Bool
  anonSignInOk : Bool
  userExists : Bool
  insertOk : Bool
deriving DecidableEq, Repr

/-- Outcome of `verifyOtp`: success, or one of the thrown errors, in the
order the source checks them. -/
inductive VerifyOutcome where
  | success
  | errNoPending
  | errExpired
  | errTooManyAttempts
  | errBadFormat
  | errIncorrect
  | errNotConfigured
  | errSessionFailed
  | errUserCreateFailed
deriving DecidableEq, Repr

/-- The message of each thrown `verifyOtp` error, verbatim from the source. -/
def verifyMessage : VerifyOutcome → Option String
  | .success => none
  | .errNoPending => some "Please request a new OTP for this contact."
  | .errExpired => some "OTP has expired. Please request a new code."
  | .errTooManyAttempts => some "Too many incorrect attempts. Please request a new OTP."
  | .errBadFormat => some "Enter the 6-digit OTP sent to you."
  | .errIncorrect => some "Incorrect OTP. Please try again."
  | .errNotConfigured => some "Database not configured. Please try again later."
  | .errSessionFailed => some "Authentication session could not be established."
  | .errUserCreateFailed => some "Failed to create user account. Please try again."

/-- The `verifyOtp` action. Checks run in source order: pending/contact
match, expiry (`Date.now() > expiresAt`), attempt limit (`attempts >= 4`),
code format, digest comparison (a mismatch increments `attempts` and keeps
the pending state), then the backend steps; only a fully successful run
clears the pending state. -/
def verifyOtp (b : Backend) (pending : Option PendingVerification)
    (contact otp : String) (now : Nat) :
    VerifyOutcome × Option PendingVerification :=
  let trimmedContact := jsTrim contact
  match pending with
  | none => (.errNoPending, none)
  | some p =>
    if p.contact ≠ trimmedContact then (.errNoPending, some p)
    else if p.expiresAt < now then (.errExpired, none)
    else if 4 ≤ p.attempts then (.errTooManyAttempts, none)
    else if !isSixDigitCode (jsTrim otp) then (.errBadFormat, some p)
    else if hashOtp (jsTrim otp) trimmedContact ≠ p.otpHash then
      (.errIncorrect, some { p with attempts := p.attempts + 1 })
    else if !b.configured then (.errNotConfigured, some p)
    else if !b.hasSession && !b.anonSignInOk then (.errSessionFailed, some p)
    else if !b.userExists && !b.insertOk then (.errUserCreateFailed, some p)
    else (.success, none)

/-- A fully cooperating backend, used to instantiate theorems. -/
def backendOk : Backend :=
  { configured := true, hasSession := true, anonSignInOk := true
    userExists := true, insertOk := true }

/-- Opaque untyped JSON values (`any` in the source), modelled by their
serialized text; no claim inspects them. -/
def Json := String
deriving DecidableEq, Repr, Inhabited

/-- The `Product` row interface of `realtime-db.ts`. -/
structure Product where
  id : String
  name : String
  brand : String
  category : String
  color : List String
  description : Option String
  specifications : List (String × Json)
  base_price : Rat
  unit_type : String
  stock_quantity : Rat
  image_url : Option String
  brochure_url : Option String
  is_active : Bool
  created_by : Option String
  created_at : String
  updated_at : String
deriving DecidableEq, Repr

/-- The `Order` row interface of `realtime-db.ts`. -/
structure Order where
  id : String
  user_id : String
  order_number : String
  customer_name : String
  customer_email : String
  customer_phone : String
  customer_address : String
  customer_city : Option String
  customer_state : Option String
  customer_pincode : String
  items : List Json
  subtotal : Rat
  shipping_cost : Rat
  total_amount : Rat
  status : String
  payment_status : String
  payment_method : Option String
  qr_code_data : Option String
  transaction_id : Option String
  estimated_delivery : Option String
  notes : Option String
  created_at : String
  updated_at : String
deriving DecidableEq, Repr

/-- The `Inquiry` row interface of `realtime-db.ts`. -/
structure Inquiry where
  id : String
  user_id : String
  user_type : String
  location : String
  product_name : Option String
  product_specification : Option String
  quantity : Option String
  contact_name : String
  contact_email : String
  contact_phone : String
  additional_requirements : Option String
  status : String
  created_at : String
  updated_at : String
deriving DecidableEq, Repr

/-- The `UserProfile` row interface of `realtime-db.ts`. -/
structure UserProfile where
  id : String
  user_id : String
  full_name : Option String
  email : Option String
  phone_number : Option String
  address : Option String
  city : Option String
  state : Option String
  pincode : Option String
  company_name : Option String
  business_type : Option String
  gst_number : Option String
  profile_completed : Bool
  created_at : String
  updated_at : String
deriving DecidableEq, Repr

/-- A store error object, carrying the backend error code the client
inspects (`PGRST116` is "zero rows returned for a single-row query"). -/
structure StoreError where
  code : String
deriving DecidableEq, Repr

/-- The `{ data, error }` response shape every store round-trip resolves
to; the store's answer is passed to each façade method as an explicit
argument. -/
structure StoreResp (α : Type) where
  data : Option α
  error : Option StoreError
deriving DecidableEq, Repr

/-- The `getProducts` read: unconfigured short-circuits to `[]`; an error is
logged (second component `true`) and swallowed, returning `[]`; otherwise
`data || []`. The function is total — it never throws. -/
def getProducts (configured : Bool) (resp : StoreResp (List Product)) :
    List Product × Bool :=
  if !configured then ([], false)
  else
    match resp.error with
    | some _ => ([], true)
    | none => (resp.data.getD [], false)

/-- The `getProductById` read: unconfigured short-circuits to `null`; any
error — whatever its code — is logged and `null` returned; otherwise the
row (or `null`) is returned. -/
def getProductById (configured : Bool) (id : String) (resp : StoreResp Product) :
    Option Product × Bool :=
  if !configured then (none, false)
  else
    match resp.error with
    | some _ => (none, true)
    | none => (resp.data, false)

/-- The `createProduct` write: unconfigured short-circuits to `null`; an
error is logged and then thrown (`Except.error`); otherwise the inserted
row is returned. -/
def createProduct (configured : Bool) (resp : StoreResp Product) :
    Except StoreError (Option Product) :=
  if !configured then .ok none
  else
    match resp.error with
    | some e => .error e
    | none => .ok resp.data

/-- The `updateProduct` write: same contract as `createProduct`. -/
def updateProduct (configured : Bool) (id : String) (resp : StoreResp Product) :
    Except StoreError (Option Product) :=
  if !configured then .ok none
  else
    match resp.error with
    | some e => .error e
    | none => .ok resp.data

/-- The `deleteProduct` write: unconfigured short-circuits to `false`; an
error is logged and thrown; otherwise `true`. -/
def deleteProduct (configured : Bool) (id : String) (err : Option StoreError) :
    Except StoreError Bool :=
  if !configured then .ok false
  else
    match err with
    | some e => .error e
    | none => .ok true

/-- The `getOrders` read (optionally filtered store-side by `userId`): same
swallow-to-empty contract as `getProducts`. -/
def getOrders (configured : Bool) (userId : Option String)
    (resp : StoreResp (List Order)) : List Order × Bool :=
  if !configured then ([], false)
  else
    match resp.error with
    | some _ => ([], true)
    | none => (resp.data.getD [], false)

/-- The `getOrderById` read: same contract as `getProductById`. -/
def getOrderById (configured : Bool) (id : String) (resp : StoreResp Order) :
    Option Order × Bool :=
  if !configured then (none, false)
  else
    match resp.error with
    | some _ => (none, true)
    | none => (resp.data, false)

/-- The `createOrder` write: same contract as `createProduct`. -/
def createOrder (configured : Bool) (resp : StoreResp Order) :
    Except StoreError (Option Order) :=
  if !configured then .ok none
  else
    match resp.error with
    | some e => .error e
    | none => .ok resp.data

/-- The `updateOrderStatus` write: same throw-on-error contract. -/
def updateOrderStatus (configured : Bool) (id status : String)
    (paymentStatus : Option String) (resp : StoreResp Order) :
    Except StoreError (Option Order) :=
  if !configured then .ok none
  else
    match resp.error with
    | some e => .error e
    | none => .ok resp.data

/-- The `getInquiries` read: same swallow-to-empty contract. -/
def getInquiries (configured : Bool) (userId : Option String)
    (resp : StoreResp (List Inquiry)) : List Inquiry × Bool :=
  if !configured then ([], false)
  else
    match resp.error with
    | some _ => ([], true)
    | none => (resp.data.getD [], false)

/-- The `createInquiry` write (status forced to `pending` in the request):
same throw-on-error contract. -/
def createInquiry (configured : Bool) (resp : StoreResp Inquiry) :
    Except StoreError (Option Inquiry) :=
  if !configured then .ok none
  else
    match resp.error with
    | some e => .error e
    | none => .ok resp.data

/-- The `updateInquiryStatus` write: same throw-on-error contract. -/
def updateInquiryStatus (configured : Bool) (id status : String)
    (resp : StoreResp Inquiry) : Except StoreError (Option Inquiry) :=
  if !configured then .ok none
  else
    match resp.error with
    | some e => .error e
    | none => .ok resp.data

/-- The `getUserProfile` read: an error is logged and `null` returned only
when its code differs from `PGRST116`; a `PGRST116` error falls through to
`return data` without logging. -/
def getUserProfile (configured : Bool) (userId : String)
    (resp : StoreResp UserProfile) : Option UserProfile × Bool :=
  if !configured then (none, false)
  else
    match resp.error with
    | some e => if e.code ≠ "PGRST116" then (none, true) else (resp.data, false)
    | none => (resp.data, false)

/-- The `upsertUserProfile` write: same throw-on-error contract. -/
def upsertUserProfile (configured : Bool) (userId : String)
    (resp : StoreResp UserProfile) : Except StoreError (Option UserProfile) :=
  if !configured then .ok none
  else
    match resp.error with
    | some e => .error e
    | none => .ok resp.data

/-- A realtime channel as the backend client sees it: its numeric handle,
the topic name it was created under, the `(table, filter)` event filter it
listens on, the id of the consumer callback attached to it, and whether it
is currently subscribed (open). -/
structure Channel where
  id : Nat
  topic : String
  table : String
  filter : Option String
  cbId : Nat
  isOpen : Bool
deriving DecidableEq, Repr

/-- State of the subscription layer: the configuration flag, a fresh-handle
counter, every channel the backend client has created (each `channel()`
call creates an independent one — no reference counting), and the
manager's private `channels : Map<string, RealtimeChannel>` registry,
modelled as an insertion-ordered association list with JavaScript `Map`
set/delete semantics. -/
structure RTWorld where
  configured : Bool
  nextId : Nat
  worldChannels : List Channel
  registry : List (String × Nat)
deriving DecidableEq, Repr

/-- JavaScript `Map.prototype.set`: replace the binding in place when the
key is present, otherwise append it. -/
def mapSet (m : List (String × Nat)) (k : String) (v : Nat) : List (String × Nat) :=
  if m.any (fun p => p.1 = k) then
    m.map (fun p => if p.1 = k then (k, v) else p)
  else m ++ [(k, v)]

/-- JavaScript `Map.prototype.delete`. -/
def mapDelete (m : List (String × Nat)) (k : String) : List (String × Nat) :=
  m.filter (fun p => p.1 ≠ k)

/-- Mark the channel with the given handle closed (`channel.unsubscribe()`;
idempotent on an already-closed channel). -/
def closeChannel (chs : List Channel) (id : Nat) : List Channel :=
  chs.map (fun ch => if ch.id = id then { ch with isOpen := false } else ch)

/-- The teardown closure a subscribe call returns: either the no-op of the
unconfigured path, or `channel.unsubscribe(); channels.delete(channelName)`
over the captured channel and name. -/
inductive Unsub where
  | noop
  | close (topic : String) (id : Nat)
deriving DecidableEq, Repr

/-- Run a returned teardown closure against the current state. -/
def runUnsub (w : RTWorld) (u : Unsub) : RTWorld :=
  match u with
  | .noop => w
  | .close topic id =>
    { w with worldChannels := closeChannel w.worldChannels id
             registry := mapDelete w.registry topic }

/-- Core of every subscribe method: create a fresh channel on the given
topic with the given event filter, subscribe it, record it in the registry
under the topic name (displacing — without closing — any previous binding),
and return the teardown closure. -/
def subscribeChannel (w : RTWorld) (topic table : String) (filter : Option String)
    (cbId : Nat) : RTWorld × Unsub :=
  if !w.configured then (w, .noop)
  else
    ({ w with
        nextId := w.nextId + 1
        worldChannels := w.worldChannels ++
          [{ id := w.nextId, topic := topic, table := table
             filter := filter, cbId := cbId, isOpen := true }]
        registry := mapSet w.registry topic w.nextId },
     .close topic w.nextId)

/-- The `subscribeToProducts` method: fixed topic `products_realtime`,
table `products`, no row filter. -/
def subscribeToProducts (w : RTWorld) (cbId : Nat) : RTWorld × Unsub :=
  subscribeChannel w "products_realtime" "products" none cbId

/-- The `subscribeToOrders` method: per-user topic and `user_id` row filter
when a `userId` is supplied, else the shared `orders_all` topic. -/
def subscribeToOrders (w : RTWorld) (cbId : Nat) (userId : Option String) :
    RTWorld × Unsub :=
  match userId with
  | some uid =>
    subscribeChannel w ("orders_" ++ uid) "orders" (some ("user_id=eq." ++ uid)) cbId
  | none => subscribeChannel w "orders_all" "orders" none cbId

/-- The `subscribeToInquiries` method, mirroring `subscribeToOrders`. -/
def subscribeToInquiries (w : RTWorld) (cbId : Nat) (userId : Option String) :
    RTWorld × Unsub :=
  match userId with
  | some uid =>
    subscribeChannel w ("inquiries_" ++ uid) "inquiries" (some ("user_id=eq." ++ uid)) cbId
  | none => subscribeChannel w "inquiries_all" "inquiries" none cbId

/-- The `unsubscribeAll` method: unsubscribe every channel currently bound
in the registry, then clear the registry. -/
def unsubscribeAll (w : RTWorld) : RTWorld :=
  { w with
      worldChannels := w.worldChannels.map (fun ch =>
        if w.registry.any (fun p => p.2 = ch.id) then { ch with isOpen := false } else ch)
      registry := [] }

/-- Whether a callback id is attached to any channel at all; a callback can
only ever be invoked through a channel it is attached to. -/
def callbackAttached (w : RTWorld) (cbId : Nat) : Bool :=
  w.worldChannels.any (fun ch => ch.cbId = cbId)

/-- The empty configured world, before any subscribe call. -/
def rtInit : RTWorld :=
  { configured := true, nextId := 0, worldChannels := [], registry := [] }

/-- A notification payload as normalized by the subscription layer: an
event kind plus `new` and/or `old` row images. -/
inductive EventType where
  | INSERT
  | UPDATE
  | DELETE
deriving DecidableEq, Repr

/-- Payload delivered to a product-table consumer callback. -/
structure ProductPayload where
  eventType : EventType
  new : Option Product
  old : Option Product
deriving DecidableEq, Repr

/-- The notification handler of the `Products` page consumer: INSERT with a
new image prepends the row, UPDATE with a new image replaces the row with
the matching id, DELETE with an old image filters out the rows with the old
image's id; any payload missing the required image leaves the list
unchanged. -/
def productsHandler (payload : ProductPayload) (prev : List Product) : List Product :=
  match payload.eventType, payload.new, payload.old with
  | .INSERT, some n, _ => n :: prev
  | .UPDATE, some n, _ => prev.map (fun p => if p.id = n.id then n else p)
  | .DELETE, _, some o => prev.filter (fun p => p.id ≠ o.id)
  | _, _, _ => prev

/-- A concrete product row with the given id, for instantiating theorems. -/
def mkProduct (id : String) : Product :=
  { id := id, name := "FR PVC Insulated Wire 1.5 sq mm", brand := "Polycab"
    category := "House Wires", color := ["Red", "Blue"], description := none
    specifications := [], base_price := 28, unit_type := "metres"
    stock_quantity := 5000, image_url := none, brochure_url := none
    is_active := true, created_by := none
    created_at := "2025-10-19", updated_at := "2025-10-19" }

/-- The pending verification produced by `requestOtp` for
`user@example.com` at time 0, for instantiating theorems. -/
def pvExample : PendingVerification :=
  { contact := "user@example.com"
    otpHash := hashOtp "123456" "user@example.com"
    expiresAt := 300000
    attempts := 0 }

/-- The world reached from the empty configured world by two consecutive
`subscribeToProducts` calls (callback ids 7 and 8), for instantiating
theorems. -/
def rtTwoProducts : RTWorld :=
  (subscribeToProducts (subscribeToProducts rtInit 7).1 8).1

/-- The empty unconfigured world, for instantiating theorems. -/
def rtUnconfigured : RTWorld :=
  { configured := false, nextId := 0, worldChannels := [], registry := [] }

end Wire

namespace Wire

/-- With no pending verification, every `verifyOtp` call fails with the
no-pending error and leaves nothing behind. -/
theorem verifyOtp_none (b : Backend) (contact otp : String) (now : Nat) :
    verifyOtp b none contact otp now = (.errNoPending, none) := rfl

/-- A call whose trimmed contact differs from the pending contact fails
first, with the no-pending error, leaving the pending record untouched. -/
theorem verifyOtp_step_wrong_contact (b : Backend) (p : PendingVerification)
    (contact otp : String) (now : Nat) (hc : p.contact ≠ jsTrim contact) :
    verifyOtp b (some p) contact otp now = (.errNoPending, some p) := by
  simp only [verifyOtp]
  rw [if_pos hc]

/-- A matching call on an expired pending verification fails with the
expiry error and clears the pending state. -/
theorem verifyOtp_step_expired (b : Backend) (p : PendingVerification)
    (contact otp : String) (now : Nat) (hc : p.contact = jsTrim contact)
    (he : p.expiresAt < now) :
    verifyOtp b (some p) contact otp now = (.errExpired, none) := by
  simp only [verifyOtp]
  rw [if_neg (not_not_intro hc), if_pos he]

/-- A matching, unexpired call with the attempt counter already at the
limit fails with the too-many-attempts error and clears the pending
state. -/
theorem verifyOtp_step_lockout (b : Backend) (p : PendingVerification)
    (contact otp : String) (now : Nat) (hc : p.contact = jsTrim contact)
    (he : now ≤ p.expiresAt) (ha : 4 ≤ p.attempts) :
    verifyOtp b (some p) contact otp now = (.errTooManyAttempts, none) := by
  simp only [verifyOtp]
  rw [if_neg (not_not_intro hc), if_neg (Nat.not_lt.mpr he), if_pos ha]

/-- A matching, unexpired, under-limit call whose trimmed code is not six
digits fails with the format error and leaves the pending record
untouched. -/
theorem verifyOtp_step_badformat (b : Backend) (p : PendingVerification)
    (contact otp : String) (now : Nat) (hc : p.contact = jsTrim contact)
    (he : now ≤ p.expiresAt) (ha : p.attempts < 4)
    (hf : isSixDigitCode (jsTrim otp) = false) :
    verifyOtp b (some p) contact otp now = (.errBadFormat, some p) := by
  simp only [verifyOtp]
  rw [if_neg (not_not_intro hc), if_neg (Nat.not_lt.mpr he), if_neg (Nat.not_le.mpr ha),
    if_pos (by simp [hf])]

/-- A matching, unexpired, under-limit, well-formed call whose digest does
not match increments the attempt counter and fails with the incorrect-code
error, keeping the pending record otherwise unchanged. -/
theorem verifyOtp_step_wrong_code (b : Backend) (p : PendingVerification)
    (contact otp : String) (now : Nat) (hc : p.contact = jsTrim contact)
    (he : now ≤ p.expiresAt) (ha : p.attempts < 4)
    (hf : isSixDigitCode (jsTrim otp) = true)
    (hh : hashOtp (jsTrim otp) (jsTrim contact) ≠ p.otpHash) :
    verifyOtp b (some p) contact otp now =
      (.errIncorrect, some { p with attempts := p.attempts + 1 }) := by
  simp only [verifyOtp]
  rw [if_neg (not_not_intro hc), if_neg (Nat.not_lt.mpr he), if_neg (Nat.not_le.mpr ha),
    if_neg (by simp [hf]), if_pos hh]

/-- A matching, unexpired, under-limit, well-formed call with the right
digest and a cooperating backend succeeds and clears the pending state. -/
theorem verifyOtp_step_success (b : Backend) (p : PendingVerification)
    (contact otp : String) (now : Nat) (hc : p.contact = jsTrim contact)
    (he : now ≤ p.expiresAt) (ha : p.attempts < 4)
    (hf : isSixDigitCode (jsTrim otp) = true)
    (hh : hashOtp (jsTrim otp) (jsTrim contact) = p.otpHash)
    (hb : b.configured = true)
    (hs : b.hasSession = true ∨ b.anonSignInOk = true)
    (hu : b.userExists = true ∨ b.insertOk = true) :
    verifyOtp b (some p) contact otp now = (.success, none) := by
  simp only [verifyOtp]
  rw [if_neg (not_not_intro hc), if_neg (Nat.not_lt.mpr he), if_neg (Nat.not_le.mpr ha),
    if_neg (by simp [hf]), if_neg (not_not_intro hh), if_neg (by simp [hb])]
  rcases hs with hs | hs <;> rcases hu with hu | hu <;>
    rw [if_neg (by simp [hs]), if_neg (by simp [hu])]

/-- On a valid trimmed contact, `requestOtp` succeeds and replaces any
prior pending verification by a fresh record: trimmed contact, digest of
the generated code, expiry exactly five minutes (300000 ms) out, zero
attempts. -/
theorem requestOtp_valid (pending : Option PendingVerification) (contact : String)
    (now : Nat) (hv : isValidEmail (jsTrim contact) = true ∨ isValidPhone (jsTrim contact) = true) :
    requestOtp pending contact now =
      (.ok, some { contact := jsTrim contact
                   otpHash := hashOtp generateOtp (jsTrim contact)
                   expiresAt := now + 5 * 60 * 1000
                   attempts := 0 }) := by
  simp only [requestOtp]
  rcases hv with hv | hv <;> rw [if_neg (by simp [hv])]

/-- Claim C1, counterexample: four consecutive wrong well-formed attempts
do NOT clear the pending verification — after the fourth wrong call the
pending record is still present (with `attempts = 4`), and the fifth call
with the correct code fails with the too-many-attempts error (it is that
fifth call which clears the state), not because no pending state remains. -/
theorem four_wrong_attempts_do_not_clear_pending_cex :
    (verifyOtp backendOk (verifyOtp backendOk (verifyOtp backendOk (verifyOtp backendOk
        (requestOtp none "user@example.com" 0).2 "user@example.com" "000000" 0).2
        "user@example.com" "000000" 0).2 "user@example.com" "000000" 0).2
        "user@example.com" "000000" 0).2 ≠ none ∧
    (verifyOtp backendOk (verifyOtp backendOk (verifyOtp backendOk (verifyOtp backendOk
        (verifyOtp backendOk (requestOtp none "user@example.com" 0).2
        "user@example.com" "000000" 0).2 "user@example.com" "000000" 0).2
        "user@example.com" "000000" 0).2 "user@example.com" "000000" 0).2
        "user@example.com" "123456" 0).1 = .errTooManyAttempts := by decide

/-- Claim C1 (amended): for a pending verification with a zero attempt
counter, four consecutive wrong well-formed 6-digit attempts leave the
pending verification present with `attempts = 4`; the fifth call — even
with the correct code — fails with the too-many-attempts error and it is
that call which clears the pending state; a sixth call then fails because
no pending state remains. -/
theorem four_wrong_attempts_keep_pending_fifth_clears
    (b : Backend) (p : PendingVerification) (contact w c5 : String) (now : Nat)
    (hc : p.contact = jsTrim contact) (he : now ≤ p.expiresAt) (ha : p.attempts = 0)
    (hf : isSixDigitCode (jsTrim w) = true)
    (hh : hashOtp (jsTrim w) (jsTrim contact) ≠ p.otpHash) :
    (verifyOtp b (verifyOtp b (verifyOtp b (verifyOtp b (some p) contact w now).2
        contact w now).2 contact w now).2 contact w now).2 =
      some { p with attempts := 4 } ∧
    verifyOtp b (some { p with attempts := 4 }) contact c5 now =
      (.errTooManyAttempts, none) ∧
    verifyOtp b none contact c5 now = (.errNoPending, none) := by
  obtain ⟨pc, ph, pe, pa⟩ := p
  replace hc : pc = jsTrim contact := hc
  replace he : now ≤ pe := he
  replace ha : pa = 0 := ha
  replace hh : hashOtp (jsTrim w) (jsTrim contact) ≠ ph := hh
  subst ha
  have h1 : verifyOtp b (some ⟨pc, ph, pe, 0⟩) contact w now
      = (.errIncorrect, some ⟨pc, ph, pe, 1⟩) :=
    verifyOtp_step_wrong_code b ⟨pc, ph, pe, 0⟩ contact w now hc he
      (by show (0 : Nat) < 4; decide) hf hh
  have h2 : verifyOtp b (some ⟨pc, ph, pe, 1⟩) contact w now
      = (.errIncorrect, some ⟨pc, ph, pe, 2⟩) :=
    verifyOtp_step_wrong_code b ⟨pc, ph, pe, 1⟩ contact w now hc he
      (by show (1 : Nat) < 4; decide) hf hh
  have h3 : verifyOtp b (some ⟨pc, ph, pe, 2⟩) contact w now
      = (.errIncorrect, some ⟨pc, ph, pe, 3⟩) :=
    verifyOtp_step_wrong_code b ⟨pc, ph, pe, 2⟩ contact w now hc he
      (by show (2 : Nat) < 4; decide) hf hh
  have h4 : verifyOtp b (some ⟨pc, ph, pe, 3⟩) contact w now
      = (.errIncorrect, some ⟨pc, ph, pe, 4⟩) :=
    verifyOtp_step_wrong_code b ⟨pc, ph, pe, 3⟩ contact w now hc he
      (by show (3 : Nat) < 4; decide) hf hh
  refine ⟨?_, ?_, verifyOtp_none b contact c5 now⟩
  · simp only [h1, h2, h3, h4]
  · exact verifyOtp_step_lockout b ⟨pc, ph, pe, 4⟩ contact c5 now hc he
      (by show (4 : Nat) ≤ 4; decide)

/-- Witness for the amended claim C1 at the concrete pending verification
created by `requestOtp("user@example.com")`. -/
theorem four_wrong_attempts_keep_pending_fifth_clears_witness :
    (verifyOtp backendOk (verifyOtp backendOk (verifyOtp backendOk (verifyOtp backendOk
        (some pvExample) "user@example.com" "000000" 0).2
        "user@example.com" "000000" 0).2 "user@example.com" "000000" 0).2
        "user@example.com" "000000" 0).2 =
      some { pvExample with attempts := 4 } ∧
    verifyOtp backendOk (some { pvExample with attempts := 4 })
        "user@example.com" "123456" 0 = (.errTooManyAttempts, none) ∧
    verifyOtp backendOk none "user@example.com" "123456" 0 = (.errNoPending, none) :=
  four_wrong_attempts_keep_pending_fifth_clears backendOk pvExample
    "user@example.com" "000000" "123456" 0
    (by decide) (by decide) (by decide) (by decide) (by decide)

/-- Claim C4: after `requestOtp("user@example.com")` succeeds, an immediate
`verifyOtp("user@example.com", "123456")` succeeds (the generated code is
the fixed test code) — given a configured, cooperating backend — and a
second `verifyOtp` with the same contact and code after that success fails
with the no-pending error: the code is single-use. -/
theorem request_then_verify_roundtrip
    (b : Backend) (pend0 : Option PendingVerification) (now : Nat)
    (hb : b.configured = true)
    (hs : b.hasSession = true ∨ b.anonSignInOk = true)
    (hu : b.userExists = true ∨ b.insertOk = true) :
    (requestOtp pend0 "user@example.com" now).1 = .ok ∧
    verifyOtp b (requestOtp pend0 "user@example.com" now).2
      "user@example.com" "123456" now = (.success, none) ∧
    verifyOtp b (verifyOtp b (requestOtp pend0 "user@example.com" now).2
        "user@example.com" "123456" now).2 "user@example.com" "123456" now =
      (.errNoPending, none) := by
  have hr := requestOtp_valid pend0 "user@example.com" now (Or.inl (by decide))
  have h2 : (requestOtp pend0 "user@example.com" now).2 =
      some { contact := jsTrim "user@example.com"
             otpHash := hashOtp generateOtp (jsTrim "user@example.com")
             expiresAt := now + 5 * 60 * 1000, attempts := 0 } := by rw [hr]
  have hv : verifyOtp b
      (some { contact := jsTrim "user@example.com"
              otpHash := hashOtp generateOtp (jsTrim "user@example.com")
              expiresAt := now + 5 * 60 * 1000, attempts := 0 })
      "user@example.com" "123456" now = (.success, none) :=
    verifyOtp_step_success b _ "user@example.com" "123456" now rfl
      (Nat.le_add_right now (5 * 60 * 1000)) (by show (0 : Nat) < 4; decide) (by decide)
      (by
        show hashOtp (jsTrim "123456") (jsTrim "user@example.com") =
          hashOtp generateOtp (jsTrim "user@example.com")
        decide) hb hs hu
  refine ⟨by rw [hr], ?_, ?_⟩
  · rw [h2]; exact hv
  · rw [h2, hv]; exact verifyOtp_none b "user@example.com" "123456" now

/-- Witness for claim C4 with the fully cooperating backend at time 0. -/
theorem request_then_verify_roundtrip_witness :
    (requestOtp none "user@example.com" 0).1 = .ok ∧
    verifyOtp backendOk (requestOtp none "user@example.com" 0).2
      "user@example.com" "123456" 0 = (.success, none) ∧
    verifyOtp backendOk (verifyOtp backendOk (requestOtp none "user@example.com" 0).2
        "user@example.com" "123456" 0).2 "user@example.com" "123456" 0 =
      (.errNoPending, none) :=
  request_then_verify_roundtrip backendOk none 0 (by decide)
    (Or.inl (by decide)) (Or.inl (by decide))

/-- Claim C6: `requestOtp` (on a valid contact) stores an expiry instant
exactly five minutes — 300000 ms — after the request, and any `verifyOtp`
call addressed to a pending verification (matching trimmed contact) whose
expiry has passed fails with the expiry error and clears the pending
state. -/
theorem otp_expiry_contract :
    (∀ (pending : Option PendingVerification) (contact : String) (now : Nat),
        isValidEmail (jsTrim contact) = true ∨ isValidPhone (jsTrim contact) = true →
        requestOtp pending contact now =
          (.ok, some { contact := jsTrim contact
                       otpHash := hashOtp generateOtp (jsTrim contact)
                       expiresAt := now + 5 * 60 * 1000, attempts := 0 })) ∧
    (∀ (b : Backend) (p : PendingVerification) (contact otp : String) (now : Nat),
        p.contact = jsTrim contact → p.expiresAt < now →
        verifyOtp b (some p) contact otp now = (.errExpired, none)) :=
  ⟨requestOtp_valid, verifyOtp_step_expired⟩

/-- Witness for claim C6: the request at time 0 stores expiry 300000, and
verification at time 300001 fails expired and clears the state. -/
theorem otp_expiry_contract_witness :
    requestOtp none "user@example.com" 0 =
      (.ok, some { contact := jsTrim "user@example.com"
                   otpHash := hashOtp generateOtp (jsTrim "user@example.com")
                   expiresAt := 0 + 5 * 60 * 1000, attempts := 0 }) ∧
    verifyOtp backendOk (some pvExample) "user@example.com" "123456" 300001 =
      (.errExpired, none) :=
  ⟨otp_expiry_contract.1 none "user@example.com" 0 (Or.inl (by decide)),
   otp_expiry_contract.2 backendOk pvExample "user@example.com" "123456" 300001
     (by decide) (by decide)⟩

/-- Claim C7, counterexample: the claim fails for a contact `d` that
differs from the pending contact `c` only by surrounding whitespace —
`verifyOtp` trims its contact argument before the comparison, so for
`d = "user@example.com "` (with `d ≠ c`) the call with the correct code
succeeds and clears the pending state instead of failing with the
request-a-new-OTP message and leaving the state unchanged. -/
theorem wrong_contact_trimming_cex :
    "user@example.com " ≠ "user@example.com" ∧
    verifyOtp backendOk (some pvExample) "user@example.com " "123456" 0 =
      (.success, none) := by decide

/-- Claim C7 (amended): for every pending verification on contact `c` and
every contact `d` whose trimmed form differs from `c`, `verifyOtp(d, code)`
fails with the distinct request-a-new-OTP message and leaves the pending
verification unchanged — in particular the attempt counter is not
incremented. -/
theorem verify_wrong_contact_no_attempt_consumed
    (b : Backend) (p : PendingVerification) (d code : String) (now : Nat)
    (hc : jsTrim d ≠ p.contact) :
    verifyOtp b (some p) d code now = (.errNoPending, some p) ∧
    verifyMessage .errNoPending = some "Please request a new OTP for this contact." :=
  ⟨verifyOtp_step_wrong_contact b p d code now (fun h => hc h.symm), rfl⟩

/-- Witness for the amended claim C7 at a genuinely different contact. -/
theorem verify_wrong_contact_no_attempt_consumed_witness :
    verifyOtp backendOk (some pvExample) "other@example.com" "123456" 0 =
      (.errNoPending, some pvExample) ∧
    verifyMessage .errNoPending = some "Please request a new OTP for this contact." :=
  verify_wrong_contact_no_attempt_consumed backendOk pvExample
    "other@example.com" "123456" 0 (by decide)

/-- Claim C10, counterexample: the claim fails for a code that is not
exactly six digits but trims to six digits — `verifyOtp` trims the code
before the format test, so for the 7-character code `" 000000"` on a live
matching pending verification the call does not fail with the format
error: it reaches the digest comparison, fails as an incorrect code, and
increments the attempt counter. -/
theorem malformed_code_trimming_cex :
    isSixDigitCode " 000000" = false ∧
    verifyOtp backendOk (some pvExample) "user@example.com" " 000000" 0 =
      (.errIncorrect, some { pvExample with attempts := 1 }) := by decide

/-- Claim C10 (amended): for every pending verification with attempts < 4
and unexpired, a `verifyOtp` call with matching contact but a code whose
trimmed form is not exactly six digits fails with the format error and
leaves the pending verification completely unchanged — the attempt counter
is not incremented, so such malformed codes never count toward the
four-attempt limit. -/
theorem malformed_code_frame
    (b : Backend) (p : PendingVerification) (contact otp : String) (now : Nat)
    (hc : p.contact = jsTrim contact) (he : now ≤ p.expiresAt) (ha : p.attempts < 4)
    (hf : isSixDigitCode (jsTrim otp) = false) :
    verifyOtp b (some p) contact otp now = (.errBadFormat, some p) ∧
    verifyMessage .errBadFormat = some "Enter the 6-digit OTP sent to you." :=
  ⟨verifyOtp_step_badformat b p contact otp now hc he ha hf, rfl⟩

/-- Witness for the amended claim C10 at the five-digit code `"12345"`. -/
theorem malformed_code_frame_witness :
    verifyOtp backendOk (some pvExample) "user@example.com" "12345" 0 =
      (.errBadFormat, some pvExample) ∧
    verifyMessage .errBadFormat = some "Enter the 6-digit OTP sent to you." :=
  malformed_code_frame backendOk pvExample "user@example.com" "12345" 0
    (by decide) (by decide) (by decide) (by decide)

/-- Claim C2, counterexample: `getProductById` does NOT exempt the
zero-rows-for-a-single-row-query condition (`PGRST116`) from error
logging — given a store response carrying that error code it logs it as an
error (second component `true`), contradicting the claim that for the
getById-style reads this condition is not logged as an error; only
`getUserProfile` implements the exemption. -/
theorem getProductById_logs_zero_rows_error_cex :
    getProductById true "p1" { data := none, error := some { code := "PGRST116" } } =
      (none, true) ∧
    (getUserProfile true "u1" { data := none, error := some { code := "PGRST116" } }).2 =
      false := by decide

/-- Claim C2 (amended): on a store error every getById-style read returns
null rather than propagating the failure; `getUserProfile` additionally
treats the `PGRST116` zero-rows condition as the normal not-found signal
and does not log it as an error (while logging any other error code);
`getProductById` and `getOrderById` log every error. -/
theorem getById_error_contract :
    (∀ (id : String) (resp : StoreResp Product) (e : StoreError),
        resp.error = some e → getProductById true id resp = (none, true)) ∧
    (∀ (id : String) (resp : StoreResp Order) (e : StoreError),
        resp.error = some e → getOrderById true id resp = (none, true)) ∧
    (∀ (uid : String) (resp : StoreResp UserProfile) (e : StoreError),
        resp.error = some e → resp.data = none → (getUserProfile true uid resp).1 = none) ∧
    (∀ (uid : String) (resp : StoreResp UserProfile),
        resp.error = some { code := "PGRST116" } → (getUserProfile true uid resp).2 = false) ∧
    (∀ (uid : String) (resp : StoreResp UserProfile) (e : StoreError),
        resp.error = some e → e.code ≠ "PGRST116" → getUserProfile true uid resp = (none, true)) := by
  refine ⟨?_, ?_, ?_, ?_, ?_⟩
  · intro id resp e h; simp [getProductById, h]
  · intro id resp e h; simp [getOrderById, h]
  · intro uid resp e h hd
    by_cases hc : e.code = "PGRST116" <;> simp [getUserProfile, h, hd, hc]
  · intro uid resp h; simp [getUserProfile, h]
  · intro uid resp e h hne; simp [getUserProfile, h, hne]

/-- Witness for the amended claim C2 at concrete error responses. -/
theorem getById_error_contract_witness :
    getProductById true "p1" { data := none, error := some { code := "500" } } =
      (none, true) ∧
    getOrderById true "o1" { data := none, error := some { code := "500" } } =
      (none, true) ∧
    (getUserProfile true "u1" { data := none, error := some { code := "PGRST116" } }).1 =
      none ∧
    (getUserProfile true "u1" { data := none, error := some { code := "PGRST116" } }).2 =
      false ∧
    getUserProfile true "u1" { data := none, error := some { code := "500" } } =
      (none, true) :=
  ⟨getById_error_contract.1 "p1" _ { code := "500" } rfl,
   getById_error_contract.2.1 "o1" _ { code := "500" } rfl,
   getById_error_contract.2.2.1 "u1" _ { code := "PGRST116" } rfl rfl,
   getById_error_contract.2.2.2.1 "u1" _ rfl,
   getById_error_contract.2.2.2.2 "u1" _ { code := "500" } rfl (by decide)⟩

/-- Claim C3, counterexample: after two `subscribeToProducts` calls (which
share the `products_realtime` registry key, the second displacing — without
closing — the first channel's registry binding), `unsubscribeAll` empties
the registry and closes the registered channel (id 1), but the displaced
channel (id 0) is still open: it does not tear down every channel that is
still open. -/
theorem unsubscribeAll_leaves_displaced_channel_open_cex :
    unsubscribeAll rtTwoProducts =
      { configured := true, nextId := 2
        worldChannels :=
          [{ id := 0, topic := "products_realtime", table := "products"
             filter := none, cbId := 7, isOpen := true },
           { id := 1, topic := "products_realtime", table := "products"
             filter := none, cbId := 8, isOpen := false }]
        registry := [] } ∧
    (unsubscribeAll rtTwoProducts).worldChannels.any (fun ch => ch.isOpen) = true := by
  decide

/-- Claim C3 (amended): `unsubscribeAll` leaves the subscription registry
table empty and tears down every channel currently registered in the
table; a channel whose registry binding was displaced by a later
subscription to the same key is not torn down. -/
theorem unsubscribeAll_clears_registry_and_registered_channels (w : RTWorld) :
    (unsubscribeAll w).registry = [] ∧
    ∀ ch ∈ (unsubscribeAll w).worldChannels,
      w.registry.any (fun p => p.2 = ch.id) = true → ch.isOpen = false := by
  constructor
  · rfl
  · intro ch hch hreg
    simp only [unsubscribeAll, List.mem_map] at hch
    obtain ⟨a, ha, hfa⟩ := hch
    by_cases hc : w.registry.any (fun p => p.2 = a.id) = true
    · rw [if_pos hc] at hfa
      subst hfa
      rfl
    · rw [if_neg hc] at hfa
      subst hfa
      exact absurd hreg hc

/-- Witness for the amended claim C3 at the double-subscribe world: the
registry is cleared and the registered channel (id 1) is closed. -/
theorem unsubscribeAll_clears_registry_and_registered_channels_witness :
    (unsubscribeAll rtTwoProducts).registry = [] ∧
    ({ id := 1, topic := "products_realtime", table := "products"
       filter := none, cbId := 8, isOpen := false } : Channel).isOpen = false :=
  ⟨(unsubscribeAll_clears_registry_and_registered_channels rtTwoProducts).1,
   (unsubscribeAll_clears_registry_and_registered_channels rtTwoProducts).2
     { id := 1, topic := "products_realtime", table := "products"
       filter := none, cbId := 8, isOpen := false } (by decide) (by decide)⟩

/-- Claim C5: on a store error, every list-style read (`getProducts`,
`getOrders`, `getInquiries`) swallows the error (logging it) and returns
the empty sequence — the reads are total functions, so no failure is
thrown — while every create/update/delete-style write (`createProduct`,
`updateProduct`, `deleteProduct`, `createOrder`, `updateOrderStatus`,
`createInquiry`, `updateInquiryStatus`, `upsertUserProfile`) propagates
the store error to the caller. -/
theorem reads_swallow_errors_writes_propagate :
    (∀ (resp : StoreResp (List Product)) (e : StoreError),
        resp.error = some e → getProducts true resp = ([], true)) ∧
    (∀ (uid : Option String) (resp : StoreResp (List Order)) (e : StoreError),
        resp.error = some e → getOrders true uid resp = ([], true)) ∧
    (∀ (uid : Option String) (resp : StoreResp (List Inquiry)) (e : StoreError),
        resp.error = some e → getInquiries true uid resp = ([], true)) ∧
    (∀ (resp : StoreResp Product) (e : StoreError),
        resp.error = some e → createProduct true resp = .error e) ∧
    (∀ (id : String) (resp : StoreResp Product) (e : StoreError),
        resp.error = some e → updateProduct true id resp = .error e) ∧
    (∀ (id : String) (e : StoreError),
        deleteProduct true id (some e) = .error e) ∧
    (∀ (resp : StoreResp Order) (e : StoreError),
        resp.error = some e → createOrder true resp = .error e) ∧
    (∀ (id st : String) (ps : Option String) (resp : StoreResp Order) (e : StoreError),
        resp.error = some e → updateOrderStatus true id st ps resp = .error e) ∧
    (∀ (resp : StoreResp Inquiry) (e : StoreError),
        resp.error = some e → createInquiry true resp = .error e) ∧
    (∀ (id st : String) (resp : StoreResp Inquiry) (e : StoreError),
        resp.error = some e → updateInquiryStatus true id st resp = .error e) ∧
    (∀ (uid : String) (resp : StoreResp UserProfile) (e : StoreError),
        resp.error = some e → upsertUserProfile true uid resp = .error e) := by
  refine ⟨?_, ?_, ?_, ?_, ?_, ?_, ?_, ?_, ?_, ?_, ?_⟩
  · intro resp e h; simp [getProducts, h]
  · intro uid resp e h; simp [getOrders, h]
  · intro uid resp e h; simp [getInquiries, h]
  · intro resp e h; simp [createProduct, h]
  · intro id resp e h; simp [updateProduct, h]
  · intro id e; simp [deleteProduct]
  · intro resp e h; simp [createOrder, h]
  · intro id st ps resp e h; simp [updateOrderStatus, h]
  · intro resp e h; simp [createInquiry, h]
  · intro id st resp e h; simp [updateInquiryStatus, h]
  · intro uid resp e h; simp [upsertUserProfile, h]

/-- Witness for claim C5 at a concrete store error. -/
theorem reads_swallow_errors_writes_propagate_witness :
    getProducts true { data := none, error := some { code := "500" } } = ([], true) ∧
    getOrders true none { data := none, error := some { code := "500" } } = ([], true) ∧
    getInquiries true none { data := none, error := some { code := "500" } } = ([], true) ∧
    createProduct true { data := none, error := some { code := "500" } } =
      .error { code := "500" } ∧
    updateProduct true "p1" { data := none, error := some { code := "500" } } =
      .error { code := "500" } ∧
    deleteProduct true "p1" (some { code := "500" }) = .error { code := "500" } ∧
    createOrder true { data := none, error := some { code := "500" } } =
      .error { code := "500" } ∧
    updateOrderStatus true "o1" "confirmed" none
      { data := none, error := some { code := "500" } } = .error { code := "500" } ∧
    createInquiry true { data := none, error := some { code := "500" } } =
      .error { code := "500" } ∧
    updateInquiryStatus true "i1" "contacted"
      { data := none, error := some { code := "500" } } = .error { code := "500" } ∧
    upsertUserProfile true "u1" { data := none, error := some { code := "500" } } =
      .error { code := "500" } :=
  ⟨reads_swallow_errors_writes_propagate.1 _ { code := "500" } rfl,
   reads_swallow_errors_writes_propagate.2.1 none _ { code := "500" } rfl,
   reads_swallow_errors_writes_propagate.2.2.1 none _ { code := "500" } rfl,
   reads_swallow_errors_writes_propagate.2.2.2.1 _ { code := "500" } rfl,
   reads_swallow_errors_writes_propagate.2.2.2.2.1 "p1" _ { code := "500" } rfl,
   reads_swallow_errors_writes_propagate.2.2.2.2.2.1 "p1" { code := "500" },
   reads_swallow_errors_writes_propagate.2.2.2.2.2.2.1 _ { code := "500" } rfl,
   reads_swallow_errors_writes_propagate.2.2.2.2.2.2.2.1 "o1" "confirmed" none _
     { code := "500" } rfl,
   reads_swallow_errors_writes_propagate.2.2.2.2.2.2.2.2.1 _ { code := "500" } rfl,
   reads_swallow_errors_writes_propagate.2.2.2.2.2.2.2.2.2.1 "i1" "contacted" _
     { code := "500" } rfl,
   reads_swallow_errors_writes_propagate.2.2.2.2.2.2.2.2.2.2 "u1" _ { code := "500" } rfl⟩

/-- Claim C8: when the backend handle is unconfigured, every subscribe call
returns the world unchanged together with the no-op unsubscribe closure;
running that closure is the identity on any state (it cannot throw and has
no effect), and the passed callback is attached to no channel, so it is
never invoked. -/
theorem subscribe_unconfigured_noop (w : RTWorld) (cb : Nat)
    (h : w.configured = false) :
    subscribeToProducts w cb = (w, .noop) ∧
    (∀ uid, subscribeToOrders w cb uid = (w, .noop)) ∧
    (∀ uid, subscribeToInquiries w cb uid = (w, .noop)) ∧
    (∀ w2, runUnsub w2 .noop = w2) ∧
    (callbackAttached w cb = false →
      callbackAttached (subscribeToProducts w cb).1 cb = false) := by
  have hs : ∀ topic table filter, subscribeChannel w topic table filter cb = (w, .noop) := by
    intro t tb f
    simp [subscribeChannel, h]
  refine ⟨hs _ _ _, ?_, ?_, fun w2 => rfl, ?_⟩
  · intro uid; cases uid <;> simp [subscribeToOrders, hs]
  · intro uid; cases uid <;> simp [subscribeToInquiries, hs]
  · intro hcb
    have h1 : subscribeToProducts w cb = (w, .noop) := hs _ _ _
    rw [h1]
    exact hcb

/-- Witness for claim C8 at the empty unconfigured world, callback id 5. -/
theorem subscribe_unconfigured_noop_witness :
    subscribeToProducts rtUnconfigured 5 = (rtUnconfigured, .noop) ∧
    subscribeToOrders rtUnconfigured 5 (some "u1") = (rtUnconfigured, .noop) ∧
    runUnsub rtUnconfigured .noop = rtUnconfigured ∧
    callbackAttached (subscribeToProducts rtUnconfigured 5).1 5 = false :=
  ⟨(subscribe_unconfigured_noop rtUnconfigured 5 (by decide)).1,
   (subscribe_unconfigured_noop rtUnconfigured 5 (by decide)).2.1 (some "u1"),
   (subscribe_unconfigured_noop rtUnconfigured 5 (by decide)).2.2.2.1 rtUnconfigured,
   (subscribe_unconfigured_noop rtUnconfigured 5 (by decide)).2.2.2.2 (by decide)⟩

/-- Claim C9: for every locally projected product list holding no element
with row r's id, applying the Products-page handler for an INSERT of r and
then for a DELETE whose old image carries r's id yields a list containing
no element with that id. -/
theorem insert_then_delete_leaves_no_trace (prev : List Product) (r o : Product)
    (nw : Option Product) (ho : o.id = r.id) (hprev : ∀ p ∈ prev, p.id ≠ r.id) :
    ∀ p ∈ productsHandler { eventType := .DELETE, new := nw, old := some o }
        (productsHandler { eventType := .INSERT, new := some r, old := none } prev),
      p.id ≠ r.id := by
  intro p hp
  have h1 : productsHandler { eventType := .INSERT, new := some r, old := none } prev
      = r :: prev := rfl
  rw [h1] at hp
  have h2 : productsHandler { eventType := .DELETE, new := nw, old := some o } (r :: prev)
      = (r :: prev).filter (fun q => q.id ≠ o.id) := by
    cases nw <;> rfl
  rw [h2] at hp
  have hne := (List.mem_filter.mp hp).2
  simp only [ne_eq, decide_not, Bool.not_eq_true', decide_eq_false_iff_not] at hne
  rw [ho] at hne
  exact hne

/-- Witness for claim C9: inserting `p1` into a list holding only `p2` and
then deleting by `p1`'s old image leaves `p2`, whose id differs from
`p1`'s. -/
theorem insert_then_delete_leaves_no_trace_witness :
    (mkProduct "p2").id ≠ (mkProduct "p1").id :=
  insert_then_delete_leaves_no_trace [mkProduct "p2"] (mkProduct "p1") (mkProduct "p1")
    none rfl (by decide) (mkProduct "p2") (by decide)

end Wire
